import Mathlib

/-!
Verification of the cost-dashboard core (`dashbord.py`): data loading and
normalization (`load_data`), the filter engine (`apply_filters`) and the
group-by-and-sum aggregates built in `create_charts` /
`create_tarefa_consolidada_chart` / `create_tables`.

Modelling conventions:
* Categorical cell values (document type, task name, category names, supplier
  name, ...) are abstracted as `Nat` codes; only equality, membership in a
  selection, and the group-key order matter to the program logic.
* A pandas datetime cell after coercion with pd.to_datetime(errors=coerce)
  is an `Option Date`: `none` is `NaT`.  Comparisons against `NaT` are
  `false`, as in pandas.
* A raw amount cell before coercion with pd.to_numeric(errors=coerce) is a
  `NumCell`: a numeric entry, a non-numeric text entry, or a blank; the
  coercion sends the last two to `none` (pandas `NaN`).
* Monetary amounts are `Int`; only summation and comparison are used.
* `pandas.groupby(..., sort=True)` sorts the group keys; rows whose key is
  missing (`NaN`) are dropped from the grouping, mirrored by an
  `Option`-valued key function.
-/

namespace Scania

/-- A calendar date as compared by `pandas` (`Series.dt.date`): ordered
lexicographically by year, month, day. -/
structure Date where
  year : Nat
  month : Nat
  day : Nat
deriving DecidableEq

/-- Lexicographic `≤` on dates, as `datetime.date` comparison behaves. -/
def dateLe (a b : Date) : Bool :=
  if a.year ≠ b.year then decide (a.year < b.year)
  else if a.month ≠ b.month then decide (a.month < b.month)
  else decide (a.day ≤ b.day)

/-- A raw spreadsheet cell in the `VALOR` column, before the numeric
coercion: numeric, unparseable text, or blank. -/
inductive NumCell where
  | num (n : Int)
  | text
  | blank
deriving DecidableEq

/-- The coercion pd.to_numeric(errors=coerce) on one cell: non-numeric and
blank cells become `NaN` (`none`). -/
def toNumeric : NumCell → Option Int
  | .num n => some n
  | .text => none
  | .blank => none

/-- A raw spreadsheet cell in a date column, before the day-first datetime
coercion. -/
inductive DateCell where
  | date (d : Date)
  | bad
  | blank
deriving DecidableEq

/-- The coercion pd.to_datetime(errors=coerce, dayfirst=True) on one cell:
unparseable and blank cells become `NaT` (`none`). -/
def parseDate : DateCell → Option Date
  | .date d => some d
  | .bad => none
  | .blank => none

/-- One raw row of the `OFICIAL TABLE | DATE` sheet, after the column
renaming of `load_data` (categorical values abstracted as `Nat` codes). -/
structure RawRec where
  codFornecedor : Nat
  categoriaScania : Nat
  nomeFornecedor : Nat
  dataEmissao : DateCell
  documento : Nat
  tipoDoc : Nat
  parcelas : Nat
  dataVencimento : DateCell
  valor : NumCell
  tarefa : Nat
  contaTarefa : Nat
  nomeTarefa : Nat
  tarefaConsolidada : Nat
  categoria : Option Nat
deriving DecidableEq

/-- Month abbreviations of strftime %b, used by the `MES_NOME` label. -/
def monthAbbrev : Nat → String
  | 1 => "Jan"
  | 2 => "Feb"
  | 3 => "Mar"
  | 4 => "Apr"
  | 5 => "May"
  | 6 => "Jun"
  | 7 => "Jul"
  | 8 => "Aug"
  | 9 => "Sep"
  | 10 => "Oct"
  | 11 => "Nov"
  | 12 => "Dec"
  | _ => ""

/-- One loaded row of the dashboard dataset: parsed dates, numeric `VALOR`,
and the derived columns `ANO`, `MES`, `MES_ANO`, `MES_NOME` that `load_data`
computes from `DATA_VENCIMENTO`.  The derived columns are `none` exactly when
the due date is `NaT` (pandas `NaN` entries).  `MES_ANO` (format %Y-%m) is
modelled by the (year, month) pair it renders. -/
structure Rec where
  codFornecedor : Nat
  categoriaScania : Nat
  nomeFornecedor : Nat
  dataEmissao : Option Date
  documento : Nat
  tipoDoc : Nat
  parcelas : Nat
  dataVencimento : Option Date
  valor : Int
  tarefa : Nat
  contaTarefa : Nat
  nomeTarefa : Nat
  tarefaConsolidada : Nat
  categoria : Option Nat
  ano : Option Nat
  mes : Option Nat
  mesAno : Option (Nat × Nat)
  mesNome : Option String
deriving DecidableEq

/-- The per-row transformation of `load_data` given the coerced numeric
`VALOR` `v`: parse both date columns and derive `ANO`, `MES`, `MES_ANO`,
`MES_NOME` from `DATA_VENCIMENTO`. -/
def mkRecWith (r : RawRec) (v : Int) : Rec :=
  let venc := parseDate r.dataVencimento
  { codFornecedor := r.codFornecedor
    categoriaScania := r.categoriaScania
    nomeFornecedor := r.nomeFornecedor
    dataEmissao := parseDate r.dataEmissao
    documento := r.documento
    tipoDoc := r.tipoDoc
    parcelas := r.parcelas
    dataVencimento := venc
    valor := v
    tarefa := r.tarefa
    contaTarefa := r.contaTarefa
    nomeTarefa := r.nomeTarefa
    tarefaConsolidada := r.tarefaConsolidada
    categoria := r.categoria
    ano := venc.map Date.year
    mes := venc.map Date.month
    mesAno := venc.map (fun d => (d.year, d.month))
    mesNome := venc.map (fun d => monthAbbrev d.month ++ "/" ++ toString d.year) }

/-- The per-row transformation of `load_data` reading the coerced amount from
the raw cell (only applied to rows the load keeps, where the coercion
succeeded). -/
def mkRec (r : RawRec) : Rec :=
  mkRecWith r ((toNumeric r.valor).getD 0)

/-- The row pipeline of `load_data`: parse the date columns, derive the date
keys, coerce `VALOR` to numeric, then drop the rows whose `VALOR` is null —
a row survives iff its amount coerced to a number. -/
def loadRows (raws : List RawRec) : List Rec :=
  raws.filterMap (fun r => (toNumeric r.valor).map (mkRecWith r))

/-- Result of `load_data`: the dataset plus the `st.error` message surfaced
on failure. -/
structure LoadResult where
  data : List Rec
  errorMsg : Option String
deriving DecidableEq

/-- The `st.error` text of the `except` branch of `load_data`. -/
def errorText (e : String) : String :=
  "Erro ao carregar dados: " ++ e

/-- The loader `load_data`: the outcome of reading the workbook (and any raised error) comes
in as an `Except`; on success the rows are normalized by `loadRows`, on any
exception an empty dataset is returned and the error is reported. -/
def load_data (input : Except String (List RawRec)) : LoadResult :=
  match input with
  | .ok raws => { data := loadRows raws, errorMsg := none }
  | .error e => { data := [], errorMsg := some (errorText e) }

/-- Year selection of the sidebar selectbox: `"Todos"` or one year. -/
inductive AnoSel where
  | todos
  | ano (y : Nat)
deriving DecidableEq

/-- The due-date range mask of `apply_filters`: the date part of
`DATA_VENCIMENTO` must lie between data_inicio and data_fim inclusive.
A `NaT` due date compares `False` on both sides, as in pandas. -/
def datePass (data_inicio data_fim : Date) (r : Rec) : Bool :=
  match r.dataVencimento with
  | some d => dateLe data_inicio d && dateLe d data_fim
  | none => false

/-- The date stage of `apply_filters`, including its
`not df_filtrado.empty` guard (on an empty frame the mask is skipped). -/
def dateStage (data_inicio data_fim : Date) (df : List Rec) : List Rec :=
  if df.isEmpty then df else df.filter (datePass data_inicio data_fim)

/-- The year stage of `apply_filters`: applied only when the selection is not
`"Todos"`; a `NaN` `ANO` (from a `NaT` due date) never equals a year. -/
def yearStage (ano_selecionado : AnoSel) (df : List Rec) : List Rec :=
  match ano_selecionado with
  | .todos => df
  | .ano y => df.filter (fun r => r.ano = some y)

/-- One multi-select stage of `apply_filters`:
`if sel and col in columns: df = df[df[col].isin(sel)]`.  The Python
truthiness test skips the mask when the selection list is empty.  Generic
in the cell type: the `CATEGORIA` column can hold missing cells
(`Option Nat`), and pandas isin matches a `NaN` cell only when `NaN` is
among the selected values, which is list membership on `Option Nat`. -/
def selStage {κ : Type} [DecidableEq κ] (sel : List κ) (col : Rec → κ)
    (df : List Rec) : List Rec :=
  if sel.isEmpty then df else df.filter (fun r => col r ∈ sel)

/-- The filter engine `apply_filters`: conjunctive masks in source order — due-date range,
year, Scania category, plain category, document type, task name,
consolidated task.  The `col in df.columns` guards of the source are vacuous
here because the typed row always carries every column. -/
def apply_filters (df : List Rec) (data_inicio data_fim : Date)
    (ano_selecionado : AnoSel)
    (categorias_selecionadas : List Nat) (categorias : List (Option Nat))
    (tipos_doc nomes_tarefa tarefas_consolidadas : List Nat) : List Rec :=
  selStage tarefas_consolidadas (fun r => r.tarefaConsolidada)
    (selStage nomes_tarefa (fun r => r.nomeTarefa)
      (selStage tipos_doc (fun r => r.tipoDoc)
        (selStage categorias (fun r => r.categoria)
          (selStage categorias_selecionadas (fun r => r.categoriaScania)
            (yearStage ano_selecionado
              (dateStage data_inicio data_fim df))))))

/-- Distinct values of a list in first-occurrence order. -/
def dedupFirst {κ : Type} [DecidableEq κ] : List κ → List κ
  | [] => []
  | k :: ks => k :: (dedupFirst ks).filter (fun x => decide (x ≠ k))

/-- Group-by-and-sum, as in pandas groupby(key)[val].sum().reset_index():
one row per distinct key, keys sorted by `kle` (pandas groupby defaults to
sort=True), rows whose key is missing (`NaN`) dropped (pandas default
dropna=True), each key paired with the sum of `val` over its fiber. -/
def groupBySum {α κ : Type} [DecidableEq κ] (kle : κ → κ → Prop)
    [DecidableRel kle] (key : α → Option κ) (val : α → Int)
    (rows : List α) : List (κ × Int) :=
  (List.insertionSort kle (dedupFirst (rows.filterMap key))).map
    (fun k => (k, ((rows.filter (fun r => decide (key r = some k))).map val).sum))

/-- Lexicographic order on (year, month) pairs: the order in which
sort_values by ANO, MES arranges the monthly groups, and in which the
zero-padded %Y-%m group keys sort. -/
def pairLex (p q : Nat × Nat) : Prop :=
  p.1 < q.1 ∨ (p.1 = q.1 ∧ p.2 ≤ q.2)

instance : DecidableRel pairLex := fun p q => by
  unfold pairLex; infer_instance

instance : IsTotal (Nat × Nat) pairLex where
  total p q := by
    unfold pairLex
    omega

instance : IsTrans (Nat × Nat) pairLex where
  trans p q s hpq hqs := by
    unfold pairLex at hpq hqs ⊢
    omega

/-- Group key of the monthly aggregate:
`(MES_ANO, MES_NOME, ANO, MES)`, present only on rows with a parsed due
date. -/
abbrev MKey : Type := (Nat × Nat) × String × Nat × Nat

/-- A row of the monthly aggregate frame: group key and summed `VALOR`. -/
abbrev MRow : Type := MKey × Int

/-- Order of the groupby keys of the monthly aggregate: by the rendered
%Y-%m string, i.e. lexicographically by (year, month). -/
def mkeyLe (a b : MKey) : Prop := pairLex a.1 b.1

instance : DecidableRel mkeyLe := fun a b => by
  unfold mkeyLe; infer_instance

instance : IsTotal MKey mkeyLe where
  total a b := IsTotal.total (r := pairLex) a.1 b.1

instance : IsTrans MKey mkeyLe where
  trans a b c hab hbc := IsTrans.trans (r := pairLex) a.1 b.1 c.1 hab hbc

/-- Sorting by ANO then MES, ascending, on the monthly aggregate frame. -/
def byAnoMes (a b : MRow) : Prop := pairLex a.1.2.2 b.1.2.2

instance : DecidableRel byAnoMes := fun a b => by
  unfold byAnoMes; infer_instance

instance : IsTotal MRow byAnoMes where
  total a b := IsTotal.total (r := pairLex) a.1.2.2 b.1.2.2

instance : IsTrans MRow byAnoMes where
  trans a b c hab hbc := IsTrans.trans (r := pairLex) a.1.2.2 b.1.2.2 c.1.2.2 hab hbc

/-- Sorting by VALOR ascending on an aggregate frame. -/
def valAsc (a b : Nat × Int) : Prop := a.2 ≤ b.2

instance : DecidableRel valAsc := fun a b => by
  unfold valAsc; infer_instance

instance : IsTotal (Nat × Int) valAsc where
  total a b := le_total a.2 b.2

instance : IsTrans (Nat × Int) valAsc where
  trans _ _ _ hab hbc := le_trans hab hbc

/-- Sorting by VALOR descending on an aggregate frame. -/
def valDesc (a b : Nat × Int) : Prop := b.2 ≤ a.2

instance : DecidableRel valDesc := fun a b => by
  unfold valDesc; infer_instance

instance : IsTotal (Nat × Int) valDesc where
  total a b := le_total b.2 a.2

instance : IsTrans (Nat × Int) valDesc where
  trans _ _ _ hab hbc := le_trans hbc hab

/-- The monthly aggregate df_mensal of `create_charts`: group by the key
(MES_ANO, MES_NOME, ANO, MES), sum VALOR, then sort by ANO and MES
ascending.  Rows with a `NaT` due date have `NaN` in all
four key columns and are dropped by the grouping. -/
def df_mensal (rows : List Rec) : List MRow :=
  List.insertionSort byAnoMes
    (groupBySum mkeyLe
      (fun r =>
        match r.mesAno, r.mesNome, r.ano, r.mes with
        | some x, some n, some a, some m => some (x, n, a, m)
        | _, _, _, _ => none)
      (fun r => r.valor) rows)

/-- The per-category aggregate df_categoria of `create_charts`: group by
CATEGORIA and sum VALOR.  The key is the raw `CATEGORIA` cell, so rows whose
category is missing (`NaN`) are dropped by the grouping (pandas default
dropna=True) even though they remain in the filtered dataset. -/
def df_categoria (rows : List Rec) : List (Nat × Int) :=
  groupBySum (fun a b => a ≤ b) (fun r => r.categoria)
    (fun r => r.valor) rows

/-- The dealer aggregate df_concessionaria of `create_charts`: group by
CATEGORIA_SCANIA, sum VALOR, then sort by VALOR ascending. -/
def df_concessionaria (rows : List Rec) : List (Nat × Int) :=
  List.insertionSort valAsc
    (groupBySum (fun a b => a ≤ b) (fun r => some r.categoriaScania)
      (fun r => r.valor) rows)

/-- The consolidated-task aggregate df_tarefa of
`create_tarefa_consolidada_chart`: group by TAREFA_CONSOLIDADA, sum VALOR,
sort by VALOR descending, and keep the head of 15 rows. -/
def df_tarefa (rows : List Rec) : List (Nat × Int) :=
  (List.insertionSort valDesc
    (groupBySum (fun a b => a ≤ b) (fun r => some r.tarefaConsolidada)
      (fun r => r.valor) rows)).take 15

/-! ### Library lemmas about the embedding -/

theorem mem_dedupFirst {κ : Type} [DecidableEq κ] {x : κ} :
    ∀ {l : List κ}, x ∈ dedupFirst l ↔ x ∈ l
  | [] => Iff.rfl
  | k :: ks => by
    by_cases hx : x = k
    · subst hx
      simp [dedupFirst]
    · simp [dedupFirst, hx, mem_dedupFirst (l := ks)]

theorem nodup_dedupFirst {κ : Type} [DecidableEq κ] :
    ∀ l : List κ, (dedupFirst l).Nodup
  | [] => List.nodup_nil
  | k :: ks => by
    refine List.Nodup.cons ?_ ((nodup_dedupFirst ks).filter _)
    intro hk
    have := (List.mem_filter.mp hk).2
    simp at this

theorem sum_map_filter_split {α : Type} (p : α → Bool) (val : α → Int)
    (rows : List α) :
    ((rows.filter p).map val).sum
        + ((rows.filter (fun a => !(p a))).map val).sum
      = (rows.map val).sum := by
  induction rows with
  | nil => simp
  | cons a t ih =>
    by_cases h : p a <;> simp [h] <;> omega

theorem sum_fibers {α κ : Type} [DecidableEq κ] (key : α → Option κ)
    (val : α → Int) :
    ∀ (ks : List κ) (rows : List α), ks.Nodup →
      (∀ r ∈ rows, ∃ k, k ∈ ks ∧ key r = some k) →
      (ks.map
          (fun k =>
            ((rows.filter (fun r => decide (key r = some k))).map val).sum)).sum
        = (rows.map val).sum
  | [], rows, _, hcov => by
    cases rows with
    | nil => simp
    | cons r t =>
      obtain ⟨k, hk, _⟩ := hcov r (by simp)
      exact absurd hk (List.not_mem_nil k)
  | k :: ks, rows, hnd, hcov => by
    have hknotin : k ∉ ks := (List.nodup_cons.mp hnd).1
    have hndks : ks.Nodup := (List.nodup_cons.mp hnd).2
    set B := rows.filter (fun r => !(decide (key r = some k))) with hB
    have hcovB : ∀ r ∈ B, ∃ k', k' ∈ ks ∧ key r = some k' := by
      intro r hr
      have hrrows : r ∈ rows := (List.mem_filter.mp hr).1
      have hrne : ¬ key r = some k := by
        have := (List.mem_filter.mp hr).2
        simpa using this
      obtain ⟨k', hk', hkey⟩ := hcov r hrrows
      rcases List.mem_cons.mp hk' with h | h
      · exact absurd (h ▸ hkey) hrne
      · exact ⟨k', h, hkey⟩
    have hfib : ∀ k' ∈ ks,
        rows.filter (fun r => decide (key r = some k'))
          = B.filter (fun r => decide (key r = some k')) := by
      intro k' hk'
      have hne : k' ≠ k := fun h => hknotin (h ▸ hk')
      rw [hB, List.filter_filter]
      refine (List.filter_congr ?_).symm
      intro r _
      by_cases hq : key r = some k'
      · have : ¬ key r = some k := by
          rw [hq]
          simp [hne]
        simp [hq, this, hne]
      · simp [hq]
    have hmap :
        ks.map (fun k' =>
            ((rows.filter (fun r => decide (key r = some k'))).map val).sum)
          = ks.map (fun k' =>
            ((B.filter (fun r => decide (key r = some k'))).map val).sum) := by
      refine List.map_congr_left ?_
      intro k' hk'
      rw [hfib k' hk']
    have ih := sum_fibers key val ks B hndks hcovB
    have hsplit := sum_map_filter_split (fun r => decide (key r = some k)) val rows
    simp only [List.map_cons, List.sum_cons]
    rw [hmap, ih, ← hB] at *
    omega

theorem groupBySum_sum {α κ : Type} [DecidableEq κ] (kle : κ → κ → Prop)
    [DecidableRel kle] (key : α → Option κ) (val : α → Int) (rows : List α)
    (h : ∀ r ∈ rows, (key r).isSome) :
    ((groupBySum kle key val rows).map Prod.snd).sum = (rows.map val).sum := by
  unfold groupBySum
  rw [List.map_map]
  have hperm :
      List.Perm
        ((List.insertionSort kle (dedupFirst (rows.filterMap key))).map
          (Prod.snd ∘ fun k =>
            (k, ((rows.filter (fun r => decide (key r = some k))).map val).sum)))
        ((dedupFirst (rows.filterMap key)).map
          (Prod.snd ∘ fun k =>
            (k, ((rows.filter (fun r => decide (key r = some k))).map val).sum))) :=
    (List.perm_insertionSort kle _).map _
  rw [hperm.sum_eq]
  have hcov : ∀ r ∈ rows, ∃ k, k ∈ dedupFirst (rows.filterMap key)
      ∧ key r = some k := by
    intro r hr
    obtain ⟨k, hk⟩ := Option.isSome_iff_exists.mp (h r hr)
    exact ⟨k, mem_dedupFirst.mpr (List.mem_filterMap.mpr ⟨r, hr, hk⟩), hk⟩
  exact sum_fibers key val _ rows (nodup_dedupFirst _) hcov

/-! ### Filter-engine lemmas -/

theorem dateStage_sublist (lo hi : Date) (df : List Rec) :
    (dateStage lo hi df).Sublist df := by
  unfold dateStage
  split
  · exact List.Sublist.refl df
  · exact List.filter_sublist df

theorem yearStage_sublist (ano : AnoSel) (df : List Rec) :
    (yearStage ano df).Sublist df := by
  unfold yearStage
  cases ano
  · exact List.Sublist.refl df
  · exact List.filter_sublist df

theorem selStage_sublist {κ : Type} [DecidableEq κ] (sel : List κ)
    (col : Rec → κ) (df : List Rec) :
    (selStage sel col df).Sublist df := by
  unfold selStage
  split
  · exact List.Sublist.refl df
  · exact List.filter_sublist df

theorem apply_filters_sublist_dateStage (df : List Rec) (lo hi : Date)
    (ano : AnoSel) (cs : List Nat) (cat : List (Option Nat))
    (td nt tc : List Nat) :
    (apply_filters df lo hi ano cs cat td nt tc).Sublist
      (dateStage lo hi df) := by
  unfold apply_filters
  exact ((((((selStage_sublist _ _ _).trans (selStage_sublist _ _ _)).trans
    (selStage_sublist _ _ _)).trans (selStage_sublist _ _ _)).trans
    (selStage_sublist _ _ _)).trans (yearStage_sublist _ _))

theorem mem_dateStage_datePass {x : Rec} {lo hi : Date} {df : List Rec}
    (h : x ∈ dateStage lo hi df) : datePass lo hi x = true := by
  unfold dateStage at h
  by_cases he : df.isEmpty
  · rw [if_pos he] at h
    rw [List.isEmpty_iff.mp he] at h
    simp at h
  · rw [if_neg he] at h
    exact (List.mem_filter.mp h).2

theorem dateStage_eq_self (lo hi : Date) (df : List Rec)
    (h : df.all (datePass lo hi) = true) : dateStage lo hi df = df := by
  unfold dateStage
  split
  · rfl
  · exact List.filter_eq_self.mpr (List.all_eq_true.mp h)

theorem selStage_eq_self {κ : Type} [DecidableEq κ] (sel : List κ)
    (col : Rec → κ) (df : List Rec)
    (h : ∀ r ∈ df, col r ∈ sel) : selStage sel col df = df := by
  unfold selStage
  split
  · rfl
  · refine List.filter_eq_self.mpr ?_
    intro a ha
    exact decide_eq_true (h a ha)

/-! ### Concrete sample rows used by counterexamples and witnesses -/

/-- A well-formed raw row: parseable dates, numeric amount. -/
def rawOk : RawRec :=
  { codFornecedor := 1
    categoriaScania := 1
    nomeFornecedor := 1
    dataEmissao := DateCell.date ⟨2023, 1, 5⟩
    documento := 1
    tipoDoc := 1
    parcelas := 1
    dataVencimento := DateCell.date ⟨2023, 1, 10⟩
    valor := NumCell.num 100
    tarefa := 1
    contaTarefa := 1
    nomeTarefa := 1
    tarefaConsolidada := 1
    categoria := some 1 }

/-- Same as `rawOk` but with a different issue date and the same due date. -/
def rawEmAlt : RawRec := { rawOk with dataEmissao := DateCell.date ⟨2022, 5, 5⟩ }

/-- Same as `rawOk` but with an unparseable due date (`NaT` after coercion). -/
def rawNaT : RawRec := { rawOk with dataVencimento := DateCell.bad }

/-- Same as `rawOk` but with a missing `CATEGORIA` cell. -/
def rawNoCat : RawRec := { rawOk with categoria := none }

/-- The due date of `rawOk`. -/
def d0 : Date := ⟨2023, 1, 10⟩

/-! ### Claim theorems -/

/-- C1, counterexample: with every multi-select selection empty (document
type included), the filter engine still returns the loaded row — the record
passes, so an empty selection is not treated as "exclude all". -/
theorem empty_selection_keeps_rows :
    apply_filters (loadRows [rawOk]) d0 d0 AnoSel.todos [] [] [] [] [] ≠ [] := by
  decide

/-- C1, amended: an empty selection for a multi-select filter causes that
filter to be skipped entirely (Python truthiness of the empty list), i.e. it
behaves as "include all": with all five selections empty the engine reduces
to the date and year stages alone. -/
theorem empty_selection_is_noop (df : List Rec) (lo hi : Date) (ano : AnoSel) :
    apply_filters df lo hi ano [] [] [] [] []
      = yearStage ano (dateStage lo hi df) := by
  simp [apply_filters, selStage]

/-- C2, counterexample: a loaded dataset containing a row whose due date
failed to parse (`NaT`) is not reproduced by filtering with the full date
range (here the minimum and maximum parsed due date coincide), year
`"Todos"`, and every selection full — the `NaT` row is dropped by the date
mask. -/
theorem full_range_not_identity :
    apply_filters (loadRows [rawOk, rawNaT]) d0 d0 AnoSel.todos
        [1] [some 1] [1] [1] [1]
      ≠ loadRows [rawOk, rawNaT] := by
  decide

/-- C2, amended: filtering with a date range covering every parsed due date,
year `"Todos"`, and every category/type/task value selected is the identity,
provided the due date of every record parsed (records with `NaT` due dates are
excluded even by the full range). -/
theorem apply_filters_identity (df : List Rec) (lo hi : Date)
    (cs : List Nat) (cat : List (Option Nat)) (td nt tc : List Nat)
    (hdate : df.all (datePass lo hi) = true)
    (hcs : df.all (fun r => r.categoriaScania ∈ cs) = true)
    (hcat : df.all (fun r => r.categoria ∈ cat) = true)
    (htd : df.all (fun r => r.tipoDoc ∈ td) = true)
    (hnt : df.all (fun r => r.nomeTarefa ∈ nt) = true)
    (htc : df.all (fun r => r.tarefaConsolidada ∈ tc) = true) :
    apply_filters df lo hi AnoSel.todos cs cat td nt tc = df := by
  unfold apply_filters yearStage
  rw [dateStage_eq_self lo hi df hdate]
  rw [selStage_eq_self cs _ df
    (fun r hr => by simpa using List.all_eq_true.mp hcs r hr)]
  rw [selStage_eq_self cat _ df
    (fun r hr => by simpa using List.all_eq_true.mp hcat r hr)]
  rw [selStage_eq_self td _ df
    (fun r hr => by simpa using List.all_eq_true.mp htd r hr)]
  rw [selStage_eq_self nt _ df
    (fun r hr => by simpa using List.all_eq_true.mp hnt r hr)]
  rw [selStage_eq_self tc _ df
    (fun r hr => by simpa using List.all_eq_true.mp htc r hr)]

/-- Witness for the amended C2 at a concrete loaded dataset. -/
theorem apply_filters_identity_witness :
    (loadRows [rawOk]).all (datePass d0 d0) = true
      ∧ (loadRows [rawOk]).all (fun r => r.categoriaScania ∈ [1]) = true
      ∧ (loadRows [rawOk]).all (fun r => r.categoria ∈ [some 1]) = true
      ∧ (loadRows [rawOk]).all (fun r => r.tipoDoc ∈ [1]) = true
      ∧ (loadRows [rawOk]).all (fun r => r.nomeTarefa ∈ [1]) = true
      ∧ (loadRows [rawOk]).all (fun r => r.tarefaConsolidada ∈ [1]) = true
      ∧ apply_filters (loadRows [rawOk]) d0 d0 AnoSel.todos [1] [some 1]
            [1] [1] [1]
          = loadRows [rawOk] :=
  ⟨by decide, by decide, by decide, by decide, by decide, by decide,
    apply_filters_identity (loadRows [rawOk]) d0 d0 [1] [some 1] [1] [1] [1]
      (by decide) (by decide) (by decide) (by decide) (by decide) (by decide)⟩

/-- C3, counterexample: a loaded row with a numeric amount but a missing
`CATEGORIA` cell stays in the filtered dataset and is counted in its total,
yet the per-category grouping drops it (pandas default dropna=True), so the
per-category sums do not add up to the total. -/
theorem categoria_sum_drops_missing :
    ((df_categoria (loadRows [rawNoCat])).map Prod.snd).sum
      ≠ ((loadRows [rawNoCat]).map (fun r => r.valor)).sum := by
  decide

/-- C3, amended: total conservation holds for every filtered dataset in
which each record carries a `CATEGORIA` value — then the per-category
aggregate sums partition the dataset, and the sum of the per-category
`VALOR` sums equals the sum of `VALOR` over the whole filtered dataset.
Rows whose `CATEGORIA` is missing are dropped by the grouping while still
counted in the filtered total, so they are excluded by hypothesis. -/
theorem categoria_total_conservation (rows : List Rec)
    (h : rows.all (fun r => r.categoria.isSome) = true) :
    ((df_categoria rows).map Prod.snd).sum
      = (rows.map (fun r => r.valor)).sum := by
  unfold df_categoria
  exact groupBySum_sum _ _ _ rows (fun r hr => List.all_eq_true.mp h r hr)

/-- Witness for the amended C3 at a concrete loaded dataset whose single
row has a present category. -/
theorem categoria_conservation_witness :
    (loadRows [rawOk]).all (fun r => r.categoria.isSome) = true
      ∧ ((df_categoria (loadRows [rawOk])).map Prod.snd).sum
          = ((loadRows [rawOk]).map (fun r => r.valor)).sum :=
  ⟨by decide, categoria_total_conservation (loadRows [rawOk]) (by decide)⟩

/-- C4: for every dataset and predicate set, the output of the filter engine
is a subsequence of the input — each output row occurs in the input, the
multiplicity of no row grows, and relative order is preserved. -/
theorem filtered_is_subsequence (df : List Rec) (lo hi : Date) (ano : AnoSel)
    (cs : List Nat) (cat : List (Option Nat)) (td nt tc : List Nat) :
    (apply_filters df lo hi ano cs cat td nt tc).Sublist df
      ∧ ∀ r : Rec, (apply_filters df lo hi ano cs cat td nt tc).count r
          ≤ df.count r := by
  have hs : (apply_filters df lo hi ano cs cat td nt tc).Sublist df :=
    (apply_filters_sublist_dateStage df lo hi ano cs cat td nt tc).trans
      (dateStage_sublist lo hi df)
  exact ⟨hs, fun r => hs.count_le r⟩

/-- C5: the consolidated-task aggregate is truncated by `.head(15)`, so it
has at most 15 entries for every filtered dataset. -/
theorem tarefa_consolidada_top15 (rows : List Rec) :
    (df_tarefa rows).length ≤ 15 := by
  unfold df_tarefa
  rw [List.length_take]
  exact min_le_left _ _

/-- C6: aggregate sort orders — the monthly view ascending by (year, month),
the dealer-category horizontal-bar aggregate ascending by `VALOR`, and the
consolidated-task aggregate descending by `VALOR`. -/
theorem aggregate_sort_orders (rows : List Rec) :
    List.Sorted byAnoMes (df_mensal rows)
      ∧ List.Sorted valAsc (df_concessionaria rows)
      ∧ List.Sorted valDesc (df_tarefa rows) := by
  refine ⟨?_, ?_, ?_⟩
  · exact List.sorted_insertionSort byAnoMes _
  · exact List.sorted_insertionSort valAsc _
  · exact List.Pairwise.sublist (List.take_sublist _ _)
      (List.sorted_insertionSort valDesc _)

/-- C7: the derived columns `ANO`, `MES`, `MES_ANO`, `MES_NOME` are computed
at load time from the due date alone — two raw rows with the same
`DATA_VENCIMENTO` (regardless of `DATA_EMISSAO` or amount) get identical
derived fields, and each field is the stated function of the parsed due
date. -/
theorem derived_fields_from_due_date (r₁ r₂ : RawRec) (v₁ v₂ : Int)
    (h : r₁.dataVencimento = r₂.dataVencimento) :
    (mkRecWith r₁ v₁).ano = (mkRecWith r₂ v₂).ano
      ∧ (mkRecWith r₁ v₁).mes = (mkRecWith r₂ v₂).mes
      ∧ (mkRecWith r₁ v₁).mesAno = (mkRecWith r₂ v₂).mesAno
      ∧ (mkRecWith r₁ v₁).mesNome = (mkRecWith r₂ v₂).mesNome
      ∧ (mkRecWith r₁ v₁).ano = (parseDate r₁.dataVencimento).map Date.year
      ∧ (mkRecWith r₁ v₁).mes = (parseDate r₁.dataVencimento).map Date.month
      ∧ (mkRecWith r₁ v₁).mesAno
          = (parseDate r₁.dataVencimento).map (fun d => (d.year, d.month))
      ∧ (mkRecWith r₁ v₁).mesNome
          = (parseDate r₁.dataVencimento).map
              (fun d => monthAbbrev d.month ++ "/" ++ toString d.year) := by
  simp [mkRecWith, h]

/-- Witness for C7: two concrete raw rows differing in issue date and
amount, sharing a due date. -/
theorem derived_fields_witness :
    rawOk.dataVencimento = rawEmAlt.dataVencimento
      ∧ ((mkRecWith rawOk 1).ano = (mkRecWith rawEmAlt 2).ano
        ∧ (mkRecWith rawOk 1).mes = (mkRecWith rawEmAlt 2).mes
        ∧ (mkRecWith rawOk 1).mesAno = (mkRecWith rawEmAlt 2).mesAno
        ∧ (mkRecWith rawOk 1).mesNome = (mkRecWith rawEmAlt 2).mesNome
        ∧ (mkRecWith rawOk 1).ano = (parseDate rawOk.dataVencimento).map Date.year
        ∧ (mkRecWith rawOk 1).mes = (parseDate rawOk.dataVencimento).map Date.month
        ∧ (mkRecWith rawOk 1).mesAno
            = (parseDate rawOk.dataVencimento).map (fun d => (d.year, d.month))
        ∧ (mkRecWith rawOk 1).mesNome
            = (parseDate rawOk.dataVencimento).map
                (fun d => monthAbbrev d.month ++ "/" ++ toString d.year)) :=
  ⟨rfl, derived_fields_from_due_date rawOk rawEmAlt 1 2 rfl⟩

/-- C8: the load keeps exactly the rows whose amount coerces to a number —
the result is the per-row transform mapped over the retained rows in order;
rows with non-numeric or missing amounts are the only ones dropped, and the
load is a total function. -/
theorem load_keeps_exactly_numeric (raws : List RawRec) :
    loadRows raws
      = (raws.filter (fun r => (toNumeric r.valor).isSome)).map mkRec := by
  induction raws with
  | nil => rfl
  | cons r t ih =>
    cases hv : toNumeric r.valor with
    | none =>
      simp only [loadRows] at ih ⊢
      rw [List.filterMap_cons, List.filter_cons, hv]
      simpa using ih
    | some v =>
      simp only [loadRows] at ih ⊢
      rw [List.filterMap_cons, List.filter_cons, hv]
      simp [ih, mkRec, hv]

/-- C9: when reading the workbook raises any error, `load_data` returns an
empty dataset and surfaces the descriptive error message rather than
propagating the exception. -/
theorem load_error_empty_dataset (e : String) :
    (load_data (Except.error e)).data = []
      ∧ (load_data (Except.error e)).errorMsg = some (errorText e) :=
  ⟨rfl, rfl⟩

/-- C10: a row whose due date fails to parse but whose amount is numeric
survives loading, yet is excluded by the due-date range mask for every
choice of filter parameters, so it never reaches any filtered view. -/
theorem nat_due_date_never_filtered (raw : RawRec) (raws : List RawRec)
    (hmem : raw ∈ raws) (hval : (toNumeric raw.valor).isSome = true)
    (hdate : parseDate raw.dataVencimento = none) :
    mkRec raw ∈ loadRows raws
      ∧ ∀ (lo hi : Date) (ano : AnoSel) (cs : List Nat)
          (cat : List (Option Nat)) (td nt tc : List Nat),
          mkRec raw ∉ apply_filters (loadRows raws) lo hi ano cs cat td nt tc := by
  obtain ⟨v, hv⟩ := Option.isSome_iff_exists.mp hval
  constructor
  · refine List.mem_filterMap.mpr ⟨raw, hmem, ?_⟩
    rw [hv]
    unfold mkRec
    rw [hv]
    rfl
  · intro lo hi ano cs cat td nt tc hin
    have hds : mkRec raw ∈ dateStage lo hi (loadRows raws) :=
      (apply_filters_sublist_dateStage (loadRows raws) lo hi ano cs cat td
        nt tc).mem hin
    have hdp := mem_dateStage_datePass hds
    unfold datePass at hdp
    have : (mkRec raw).dataVencimento = none := by
      unfold mkRec mkRecWith
      simp [hdate]
    rw [this] at hdp
    exact Bool.false_ne_true hdp

/-- Witness for C10: the concrete `NaT`-due-date row is loaded but filtered
out. -/
theorem nat_due_date_witness :
    rawNaT ∈ [rawNaT]
      ∧ (toNumeric rawNaT.valor).isSome = true
      ∧ parseDate rawNaT.dataVencimento = none
      ∧ mkRec rawNaT ∈ loadRows [rawNaT]
      ∧ mkRec rawNaT ∉ apply_filters (loadRows [rawNaT]) d0 d0 AnoSel.todos
          [] [] [] [] [] :=
  ⟨by decide, by decide, by decide,
    (nat_due_date_never_filtered rawNaT [rawNaT] (by decide) (by decide)
      (by decide)).1,
    (nat_due_date_never_filtered rawNaT [rawNaT] (by decide) (by decide)
      (by decide)).2 d0 d0 AnoSel.todos [] [] [] [] []⟩

end Scania
